import Mathlib

/-!
Shallow embedding of the CHIP-8 interpreter (src/device.rs) and framebuffer
(src/screen.rs). Machine integers are modelled as `Nat` with explicit
`% 256` / `% 65536` where the Rust `u8`/`u16` types truncate, and fixed
arrays are modelled as functions `Nat → _` with explicit bounds checks at
every place the Rust code would panic on an out-of-range index (a panic is
modelled as `Except.error`). Bit masks and shifts on 16-bit opcode words
are written as division and remainder by powers of two: on a word
`raw < 65536` we have `raw &&& 0xF000 = raw / 4096 * 4096`,
`raw &&& 0x0FFF = raw % 4096`, `(raw &&& 0x0F00) >>> 8 = raw / 256 % 16`,
`(raw &&& 0x00F0) >>> 4 = raw / 16 % 16`, `raw &&& 0x000F = raw % 16`,
and the low byte is `raw % 256`.
-/

namespace Chip8

/-- A fatal interpreter failure: either an unknown-opcode panic
(`panic!("unknown opcode ...")` in `Device::tick`) or an out-of-range
index/slice panic (array indexing, slice copies, stack over/underflow). -/
inductive Fault
  | decode (raw : Nat)
  | bounds

namespace Screen

def WIDTH : Nat := 64
def HEIGHT : Nat := 32
def BUFFER_SIZE : Nat := WIDTH * HEIGHT

/-- Inner `for x_column in 0..8` loop of `Screen::draw`, over the list of
remaining column indices. Mirrors the Rust body: compute the sprite bit,
break (returning what has been drawn so far) once `x_pos > WIDTH`, and for
a set bit record collision and XOR the buffer pixel; an index outside the
buffer is the Rust index-out-of-bounds panic, modelled as `.error .bounds`. -/
def drawCols (line wx ypos : Nat) :
    List Nat → (Nat → Bool) → Bool → Except Fault ((Nat → Bool) × Bool)
  | [], buf, collision => .ok (buf, collision)
  | c :: cs, buf, collision =>
    let pixel := line &&& (0x80 >>> c)
    let x_pos := wx + c
    if x_pos > WIDTH then .ok (buf, collision)
    else if pixel ≠ 0 then
      let index := x_pos + ypos * WIDTH
      if index < BUFFER_SIZE then
        drawCols line wx ypos cs
          (fun j => if j = index then !(buf j) else buf j)
          (collision || buf index)
      else .error .bounds
    else drawCols line wx ypos cs buf collision

/-- Outer `for (y_row, line) in sprite.iter().enumerate()` loop of
`Screen::draw`: break once `y_pos > HEIGHT`, otherwise scan the 8 columns
of the row and continue with the next sprite byte. -/
def drawRows (wx wy : Nat) :
    List Nat → Nat → (Nat → Bool) → Bool → Except Fault ((Nat → Bool) × Bool)
  | [], _, buf, collision => .ok (buf, collision)
  | line :: rest, y_row, buf, collision =>
    let y_pos := wy + y_row
    if y_pos > HEIGHT then .ok (buf, collision)
    else
      match drawCols line wx y_pos [0, 1, 2, 3, 4, 5, 6, 7] buf collision with
      | .error e => .error e
      | .ok (buf2, col2) => drawRows wx wy rest (y_row + 1) buf2 col2

/-- `Screen::draw`: wrap the anchor by modulo, then scan the sprite rows. -/
def draw (buf : Nat → Bool) (x y : Nat) (sprite : List Nat) :
    Except Fault ((Nat → Bool) × Bool) :=
  drawRows (x % WIDTH) (y % HEIGHT) sprite 0 buf false

/-- `Screen::clear`. -/
def clear : Nat → Bool := fun _ => false

end Screen

/-- The decoded opcode fields, mirroring `struct Opcode` in device.rs. -/
structure Opcode where
  raw : Nat
  code : Nat
  nnn : Nat
  x : Nat
  y : Nat
  kk : Nat
  n : Nat

/-- The interpreter state, mirroring `struct Device` (minus the host
window handle, which the core never reads). -/
structure Device where
  screen : Nat → Bool
  memory : Nat → Nat
  registers : Nat → Nat
  stack : Nat → Nat
  keys : Nat → Bool
  pc : Nat
  sp : Nat
  i : Nat
  dt : Nat
  st : Nat
  wait_key : Nat
  draw_flag : Bool

/-- `Device::new`: everything zeroed, `pc = 0x200`, `wait_key = 0xFF`. -/
def init : Device :=
  { screen := fun _ => false
    memory := fun _ => 0
    registers := fun _ => 0
    stack := fun _ => 0
    keys := fun _ => false
    pc := 0x200
    sp := 0
    i := 0
    dt := 0
    st := 0
    wait_key := 0xFF
    draw_flag := false }

/-- Point update of a `Nat`-valued map. -/
def updf (f : Nat → Nat) (k v : Nat) : Nat → Nat :=
  fun j => if j = k then v else f j

/-- `Device::register`: read register `x` (callers always pass a nibble). -/
def register (s : Device) (x : Nat) : Nat := s.registers x

/-- Write register `x` (array store `self.registers[x] = v`). -/
def setReg (s : Device) (x v : Nat) : Device :=
  { s with registers := updf s.registers x v }

def FONT : List Nat :=
  [0xF0, 0x90, 0x90, 0x90, 0xF0,
   0x20, 0x60, 0x20, 0x20, 0x70,
   0xF0, 0x10, 0xF0, 0x80, 0xF0,
   0xF0, 0x10, 0xF0, 0x10, 0xF0,
   0x90, 0x90, 0xF0, 0x10, 0x10,
   0xF0, 0x80, 0xF0, 0x10, 0xF0,
   0xF0, 0x80, 0xF0, 0x90, 0xF0,
   0xF0, 0x10, 0x20, 0x40, 0x40,
   0xF0, 0x90, 0xF0, 0x90, 0xF0,
   0xF0, 0x90, 0xF0, 0x10, 0xF0,
   0xF0, 0x90, 0xF0, 0x90, 0x90,
   0xE0, 0x90, 0xE0, 0x90, 0xE0,
   0xF0, 0x80, 0x80, 0x80, 0xF0,
   0xE0, 0x90, 0x90, 0x90, 0xE0,
   0xF0, 0x80, 0xF0, 0x80, 0xF0,
   0xF0, 0x80, 0xF0, 0x80, 0x80]

/-- `Device::load`: a single `read` into the slice `memory[0x200..0xFFF]`
(so at most `0xFFF - 0x200 = 3583` bytes of the ROM are copied, the rest
is dropped after a log line, never an error), then the 80-byte font set is
copied to the start of memory. Addresses outside the two written regions
keep their previous contents. -/
def load (mem : Nat → Nat) (rom : List Nat) : Nat → Nat :=
  let bytes := min rom.length (0xFFF - 0x200)
  fun a =>
    if a < FONT.length then FONT.getD a 0
    else if 0x200 ≤ a ∧ a < 0x200 + bytes then rom.getD (a - 0x200) 0
    else mem a

/-- `Device::handle_key`: record the key state; if the device is waiting
for a key and this event is a release, store the key code into the pending
register and clear the wait state. The two array stores
(`keys[key]`, `registers[wait_key]`) panic on an out-of-range index. -/
def handle_key (s : Device) (key : Nat) (pressed : Bool) : Except Fault Device :=
  if key < 16 then
    let s1 := { s with keys := fun j => if j = key then pressed else s.keys j }
    if s1.wait_key ≠ 255 ∧ pressed = false then
      if s1.wait_key < 16 then
        .ok { s1 with registers := updf s1.registers s1.wait_key key, wait_key := 255 }
      else .error .bounds
    else .ok s1
  else .error .bounds

/-- The big-endian word at `pc`: `(memory[pc] as u16) << 8 | memory[pc+1]`.
The `% 256` spell out that the two cells hold `u8` values. -/
def wordAt (s : Device) : Nat :=
  (s.memory s.pc % 256) * 256 + (s.memory (s.pc + 1) % 256)

/-- Field extraction of `Device::fetch`, written arithmetically (see the
header comment for the mask/shift identities on 16-bit words). -/
def mkOpcode (w : Nat) : Opcode :=
  { raw := w
    code := w / 4096 * 4096
    nnn := w % 4096
    x := w / 256 % 16
    y := w / 16 % 16
    n := w % 16
    kk := w % 256 }

/-- `Device::fetch`: read the two instruction bytes (panicking when `pc+1`
is outside memory) and advance `pc` by 2. -/
def fetch (s : Device) : Except Fault (Opcode × Device) :=
  if s.pc + 1 < 4096 then
    .ok (mkOpcode (wordAt s), { s with pc := s.pc + 2 })
  else .error .bounds

/-- `00EE`: pop the return address. `sp -= 1` underflows at `sp = 0`. -/
def op_00ee (s : Device) : Except Fault Device :=
  if s.sp = 0 then .error .bounds
  else .ok { s with sp := s.sp - 1, pc := s.stack (s.sp - 1) }

/-- `00E0`: clear the display and mark the draw flag. -/
def op_00e0 (s : Device) : Device :=
  { s with screen := Screen.clear, draw_flag := true }

/-- `1nnn`: jump. -/
def op_1nnn (s : Device) (nnn : Nat) : Device := { s with pc := nnn }

/-- `2nnn`: push `pc` and jump; the store `stack[sp]` panics at `sp = 16`. -/
def op_2nnn (s : Device) (nnn : Nat) : Except Fault Device :=
  if s.sp < 16 then
    .ok { s with stack := updf s.stack s.sp s.pc, sp := s.sp + 1, pc := nnn }
  else .error .bounds

/-- `3xkk`: skip if `Vx = kk`. -/
def op_3xkk (s : Device) (x kk : Nat) : Device :=
  if register s x = kk then { s with pc := s.pc + 2 } else s

/-- `4xkk`: skip if `Vx ≠ kk`. -/
def op_4xkk (s : Device) (x kk : Nat) : Device :=
  if register s x ≠ kk then { s with pc := s.pc + 2 } else s

/-- `5xy0`: skip if `Vx = Vy`. -/
def op_5xy0 (s : Device) (x y : Nat) : Device :=
  if register s x = register s y then { s with pc := s.pc + 2 } else s

/-- `6xkk`: `Vx := kk`. -/
def op_6xkk (s : Device) (x kk : Nat) : Device := setReg s x kk

/-- `7xkk`: `Vx := Vx + kk` with `overflowing_add` (wrap mod 256). -/
def op_7xkk (s : Device) (x kk : Nat) : Device :=
  setReg s x ((register s x + kk) % 256)

/-- `8xy0`: `Vx := Vy`. -/
def op_8xy0 (s : Device) (x y : Nat) : Device := setReg s x (register s y)

/-- `8xy1`: `Vx := Vx | Vy`, then `set_flag(false)` (the VF-reset quirk). -/
def op_8xy1 (s : Device) (x y : Nat) : Device :=
  setReg (setReg s x (register s x ||| register s y)) 15 0

/-- `8xy2`: `Vx := Vx & Vy`, then `set_flag(false)` (the VF-reset quirk). -/
def op_8xy2 (s : Device) (x y : Nat) : Device :=
  setReg (setReg s x (register s x &&& register s y)) 15 0

/-- `8xy3`: `Vx := Vx ^ Vy`, then `set_flag(false)` (the VF-reset quirk). -/
def op_8xy3 (s : Device) (x y : Nat) : Device :=
  setReg (setReg s x (register s x ^^^ register s y)) 15 0

/-- `8xy4`: `Vx := Vx + Vy` wrapping; `VF := carry`. -/
def op_8xy4 (s : Device) (x y : Nat) : Device :=
  let sum := register s x + register s y
  setReg (setReg s x (sum % 256)) 15 (if 256 ≤ sum then 1 else 0)

/-- `8xy5`: `Vx := Vx - Vy` wrapping; `VF := NOT borrow`. -/
def op_8xy5 (s : Device) (x y : Nat) : Device :=
  let a := register s x
  let b := register s y
  setReg (setReg s x ((a + 256 - b) % 256)) 15 (if b ≤ a then 1 else 0)

/-- `8xy6`: `lsb := Vy & 1; Vx := Vy >> 1; VF := lsb`. Note the shift
source register is `Vy`. -/
def op_8xy6 (s : Device) (x y : Nat) : Device :=
  let lsb := register s y &&& 1
  setReg (setReg s x (register s y >>> 1)) 15 lsb

/-- `8xy7`: `Vx := Vy - Vx` wrapping; `VF := NOT borrow`. -/
def op_8xy7 (s : Device) (x y : Nat) : Device :=
  let a := register s x
  let b := register s y
  setReg (setReg s x ((b + 256 - a) % 256)) 15 (if a ≤ b then 1 else 0)

/-- `8xyE`: `msb := Vy >> 7; Vx := Vy << 1` (u8 truncation); `VF := msb`.
Note the shift source register is `Vy`. -/
def op_8xye (s : Device) (x y : Nat) : Device :=
  let msb := register s y >>> 7
  setReg (setReg s x ((register s y <<< 1) % 256)) 15 msb

/-- `9xy0`: skip if `Vx ≠ Vy`. -/
def op_9xy0 (s : Device) (x y : Nat) : Device :=
  if register s x ≠ register s y then { s with pc := s.pc + 2 } else s

/-- `Annn`: `I := nnn`. -/
def op_annn (s : Device) (nnn : Nat) : Device := { s with i := nnn }

/-- `Bnnn`: `PC := nnn + V0`. -/
def op_bnnn (s : Device) (nnn : Nat) : Device :=
  { s with pc := nnn + register s 0 }

/-- `Cxkk`: `Vx := kk & random_byte`; the random byte is passed in. -/
def op_cxkk (s : Device) (x kk rnd : Nat) : Device :=
  setReg s x (kk &&& (rnd % 256))

/-- `Dxyn`: slice `memory[I .. I+n]` (u16 addition; the slice panics when
it leaves memory), draw it at `(Vx, Vy)`, set `VF` to the collision flag
and mark the draw flag. -/
def op_dxyn (s : Device) (x y n : Nat) : Except Fault Device :=
  let x_pos := register s x
  let y_pos := register s y
  let hi := (s.i + n) % 65536
  if s.i ≤ hi ∧ hi ≤ 4096 then
    let sprite := (List.range (hi - s.i)).map (fun k => s.memory (s.i + k))
    match Screen.draw s.screen x_pos y_pos sprite with
    | .error e => .error e
    | .ok (buf, collision) =>
      .ok (setReg { s with screen := buf, draw_flag := true } 15
            (if collision then 1 else 0))
  else .error .bounds

/-- `Ex9E`: skip if key `Vx` is pressed; `keys[Vx]` panics for `Vx ≥ 16`. -/
def op_ex9e (s : Device) (x : Nat) : Except Fault Device :=
  let v := register s x
  if v < 16 then
    .ok (if s.keys v then { s with pc := s.pc + 2 } else s)
  else .error .bounds

/-- `ExA1`: skip if key `Vx` is not pressed. -/
def op_exa1 (s : Device) (x : Nat) : Except Fault Device :=
  let v := register s x
  if v < 16 then
    .ok (if s.keys v then s else { s with pc := s.pc + 2 })
  else .error .bounds

/-- `Fx07`: `Vx := dt`. -/
def op_fx07 (s : Device) (x : Nat) : Device := setReg s x s.dt

/-- `Fx0A`: enter the wait-for-key state targeting register `x`. -/
def op_fx0a (s : Device) (x : Nat) : Device := { s with wait_key := x }

/-- `Fx15`: `dt := Vx`. -/
def op_fx15 (s : Device) (x : Nat) : Device := { s with dt := register s x }

/-- `Fx18`: `st := Vx`. -/
def op_fx18 (s : Device) (x : Nat) : Device := { s with st := register s x }

/-- `Fx1E`: `I := I + Vx` (u16 wrap). -/
def op_fx1e (s : Device) (x : Nat) : Device :=
  { s with i := (s.i + register s x) % 65536 }

/-- `Fx29`: `I := Vx * 5`. -/
def op_fx29 (s : Device) (x : Nat) : Device :=
  { s with i := register s x * 5 }

/-- `Fx33`: store the BCD digits of `Vx` at `I`, `I+1`, `I+2` (u16
additions); each store panics when its address leaves memory. -/
def op_fx33 (s : Device) (x : Nat) : Except Fault Device :=
  let vx := register s x
  if s.i < 4096 then
    let m0 := updf s.memory s.i (vx / 100)
    let a1 := (s.i + 1) % 65536
    if a1 < 4096 then
      let m1 := updf m0 a1 (vx % 100 / 10)
      let a2 := (s.i + 2) % 65536
      if a2 < 4096 then .ok { s with memory := updf m1 a2 (vx % 10) }
      else .error .bounds
    else .error .bounds
  else .error .bounds

/-- `Fx55`: copy `registers[0..=x]` into `memory[I..=I+x]` (u16 addition;
the slice and the length check of `copy_from_slice` panic unless the
range lies inside memory), then `I += x + 1`. -/
def op_fx55 (s : Device) (x : Nat) : Except Fault Device :=
  let last := (s.i + x) % 65536
  if s.i ≤ last ∧ last < 4096 then
    .ok { s with
          memory := fun a =>
            if s.i ≤ a ∧ a ≤ last then s.registers (a - s.i) else s.memory a
          i := (s.i + x + 1) % 65536 }
  else .error .bounds

/-- `Fx65`: copy `memory[I..=I+x]` into `registers[0..=x]` (same panics),
then `I += x + 1`. -/
def op_fx65 (s : Device) (x : Nat) : Except Fault Device :=
  let last := (s.i + x) % 65536
  if s.i ≤ last ∧ last < 4096 then
    .ok { s with
          registers := fun r =>
            if r ≤ x then s.memory (s.i + r) else s.registers r
          i := (s.i + x + 1) % 65536 }
  else .error .bounds

/-- The two-level dispatch of `Device::tick` after the fetch: primary
match on the high nibble (`opcode.code`), secondary match on `kk` or `n`
for the `0x0`, `0x8`, `0xE`, `0xF` classes; every unmatched arm is
`panic!("unknown opcode ...")`, modelled as `.error (.decode raw)`. -/
def execute (s : Device) (op : Opcode) (rnd : Nat) : Except Fault Device :=
  if op.code = 0x0000 then
    if op.kk = 0xEE then op_00ee s
    else if op.kk = 0xE0 then .ok (op_00e0 s)
    else if op.kk = 0x00 then .ok s
    else .error (.decode op.raw)
  else if op.code = 0x1000 then .ok (op_1nnn s op.nnn)
  else if op.code = 0x2000 then op_2nnn s op.nnn
  else if op.code = 0x3000 then .ok (op_3xkk s op.x op.kk)
  else if op.code = 0x4000 then .ok (op_4xkk s op.x op.kk)
  else if op.code = 0x5000 then .ok (op_5xy0 s op.x op.y)
  else if op.code = 0x6000 then .ok (op_6xkk s op.x op.kk)
  else if op.code = 0x7000 then .ok (op_7xkk s op.x op.kk)
  else if op.code = 0x8000 then
    if op.n = 0x0 then .ok (op_8xy0 s op.x op.y)
    else if op.n = 0x1 then .ok (op_8xy1 s op.x op.y)
    else if op.n = 0x2 then .ok (op_8xy2 s op.x op.y)
    else if op.n = 0x3 then .ok (op_8xy3 s op.x op.y)
    else if op.n = 0x4 then .ok (op_8xy4 s op.x op.y)
    else if op.n = 0x5 then .ok (op_8xy5 s op.x op.y)
    else if op.n = 0x6 then .ok (op_8xy6 s op.x op.y)
    else if op.n = 0x7 then .ok (op_8xy7 s op.x op.y)
    else if op.n = 0xE then .ok (op_8xye s op.x op.y)
    else .error (.decode op.raw)
  else if op.code = 0x9000 then .ok (op_9xy0 s op.x op.y)
  else if op.code = 0xA000 then .ok (op_annn s op.nnn)
  else if op.code = 0xB000 then .ok (op_bnnn s op.nnn)
  else if op.code = 0xC000 then .ok (op_cxkk s op.x op.kk rnd)
  else if op.code = 0xD000 then op_dxyn s op.x op.y op.n
  else if op.code = 0xE000 then
    if op.kk = 0x9E then op_ex9e s op.x
    else if op.kk = 0xA1 then op_exa1 s op.x
    else .error (.decode op.raw)
  else if op.code = 0xF000 then
    if op.kk = 0x07 then .ok (op_fx07 s op.x)
    else if op.kk = 0x0A then .ok (op_fx0a s op.x)
    else if op.kk = 0x15 then .ok (op_fx15 s op.x)
    else if op.kk = 0x18 then .ok (op_fx18 s op.x)
    else if op.kk = 0x1E then .ok (op_fx1e s op.x)
    else if op.kk = 0x29 then .ok (op_fx29 s op.x)
    else if op.kk = 0x33 then op_fx33 s op.x
    else if op.kk = 0x55 then op_fx55 s op.x
    else if op.kk = 0x65 then op_fx65 s op.x
    else .error (.decode op.raw)
  else .error (.decode op.raw)

/-- `Device::tick`: clear the draw flag, fetch, execute. The extra `rnd`
argument threads the byte that `Cxkk` obtains from `rand::random`. -/
def tick (s : Device) (rnd : Nat) : Except Fault Device :=
  match fetch { s with draw_flag := false } with
  | .error e => .error e
  | .ok (op, s1) => execute s1 op rnd

/-- Two consecutive ticks. -/
def tick2 (s : Device) (r1 r2 : Nat) : Except Fault Device :=
  match tick s r1 with
  | .error e => .error e
  | .ok s1 => tick s1 r2

/-- One iteration of the inner cycle loop of `Device::run` (the
`while cycles < 12` body): while the device is in the wait-for-key state
(`wait_key != 0xFF`) the loop breaks before calling `tick`, so an
interpreter step leaves the state untouched. -/
def cpuStep (s : Device) (rnd : Nat) : Except Fault Device :=
  if s.wait_key ≠ 255 then .ok s else tick s rnd

/-- `Fx55` from `s`, then `Fx65` from the resulting state with `I` reset
to its value before the `Fx55` (the round-trip of §8 of the spec: same
`x`, same `I`). -/
def fx55then65 (s : Device) (x : Nat) : Except Fault Device :=
  match op_fx55 s x with
  | .error e => .error e
  | .ok s1 => op_fx65 { s1 with i := s.i } x

/-- The raw words on which the dispatch of `Device::tick` reaches a
`panic!("unknown opcode ...")` arm. -/
def decodeFatal (w : Nat) : Bool :=
  let code := w / 4096 * 4096
  let kk := w % 256
  let n := w % 16
  if code = 0x0000 then
    !(kk == 0xEE || kk == 0xE0 || kk == 0x00)
  else if code = 0x8000 then
    !(n == 0x0 || n == 0x1 || n == 0x2 || n == 0x3 || n == 0x4 ||
      n == 0x5 || n == 0x6 || n == 0x7 || n == 0xE)
  else if code = 0xE000 then
    !(kk == 0x9E || kk == 0xA1)
  else if code = 0xF000 then
    !(kk == 0x07 || kk == 0x0A || kk == 0x15 || kk == 0x18 || kk == 0x1E ||
      kk == 0x29 || kk == 0x33 || kk == 0x55 || kk == 0x65)
  else false

/-- States reachable from the freshly constructed VM by any interleaving
of successful `tick` and `handle_key` operations. -/
inductive Reachable : Device → Prop
  | init : Reachable init
  | tick (s s' : Device) (rnd : Nat) :
      Reachable s → tick s rnd = .ok s' → Reachable s'
  | key (s s' : Device) (k : Nat) (p : Bool) :
      Reachable s → handle_key s k p = .ok s' → Reachable s'

/-- Program counter of a non-faulted result. -/
def pcOf : Except Fault Device → Option Nat
  | .ok s => some s.pc
  | .error _ => none

/-- Stack pointer of a non-faulted result. -/
def spOf : Except Fault Device → Option Nat
  | .ok s => some s.sp
  | .error _ => none

/-- Address register of a non-faulted result. -/
def iOf : Except Fault Device → Option Nat
  | .ok s => some s.i
  | .error _ => none

/-- Wait-for-key register of a non-faulted result. -/
def wkOf : Except Fault Device → Option Nat
  | .ok s => some s.wait_key
  | .error _ => none

/-- A register of a non-faulted result. -/
def regOf (r : Except Fault Device) (j : Nat) : Option Nat :=
  match r with
  | .ok s => some (s.registers j)
  | .error _ => none

/-- Whether a result is a fault. -/
def isErr : Except Fault Device → Bool
  | .ok _ => false
  | .error _ => true

/-- Framebuffer pixel of a non-faulted draw result. -/
def bufAt : Except Fault ((Nat → Bool) × Bool) → Nat → Option Bool
  | .ok (b, _), j => some (b j)
  | .error _, _ => none

/-! Concrete states used by the witnesses and counterexamples below. -/

/-- A fresh VM whose memory holds the word `0x0123` at `PC = 0x200`. -/
def c1wdev : Device :=
  { init with memory := fun a => if a = 0x200 then 0x01 else if a = 0x201 then 0x23 else 0 }

/-- A fresh VM with `V0 = 2`, `V1 = 1`. -/
def c3dev : Device :=
  { init with registers := fun j => if j = 0 then 2 else if j = 1 then 1 else 0 }

/-- A fresh VM with `V0 = 2`, `V1 = 0x80`. -/
def c3devE : Device :=
  { init with registers := fun j => if j = 0 then 2 else if j = 1 then 0x80 else 0 }

/-- A fresh VM with `VF = 1` and all other registers zero. -/
def c4dev : Device :=
  { init with registers := fun j => if j = 15 then 1 else 0 }

/-- A fresh VM waiting for a key targeting register 3. -/
def c5wdev : Device := { init with wait_key := 3 }

/-- A fresh VM whose memory holds the word `0xF30A` (`Fx0A`, x = 3) at `PC`. -/
def c5fdev : Device :=
  { init with memory := fun a => if a = 0x200 then 0xF3 else if a = 0x201 then 0x0A else 0 }

/-- A fresh VM with `2300` (call `0x300`) at `PC` and `00EE` at `0x300`. -/
def c6dev : Device :=
  { init with memory := fun a => if a = 0x200 then 0x23 else if a = 0x301 then 0xEE else 0 }

/-- `c6dev` with a full call stack (`sp = 16`). -/
def c6odev : Device := { c6dev with sp := 16 }

/-- A fresh VM with `00EE` at `PC` and an empty call stack. -/
def c6udev : Device :=
  { init with memory := fun a => if a = 0x201 then 0xEE else 0 }

/-- A fresh VM with `I = 0x300` and `Vj = j + 10`. -/
def c7dev : Device :=
  { init with i := 0x300, registers := fun j => if j < 16 then j + 10 else 0 }

/-- A fresh VM with `I = 4094`, two bytes short of the end of memory. -/
def c8dev : Device := { init with i := 4094 }


theorem wordAt_lt (s : Device) : wordAt s < 65536 := by
  unfold wordAt
  omega

theorem tick_reduce (s : Device) (rnd : Nat) (h : s.pc + 1 < 4096) :
    tick s rnd =
      execute { s with draw_flag := false, pc := s.pc + 2 } (mkOpcode (wordAt s)) rnd := by
  unfold tick fetch
  rw [if_pos h]
  rfl

set_option maxHeartbeats 1000000 in
theorem execute_mk_wait_key (S s' : Device) (w rnd : Nat) (hwlt : w < 65536)
    (h : execute S (mkOpcode w) rnd = .ok s') :
    s'.wait_key = S.wait_key ∨ s'.wait_key < 16 := by
  unfold execute at h
  dsimp only [mkOpcode] at h
  revert h
  generalize hd : w / 4096 = d
  have hd15 : d ≤ 15 := by omega
  interval_cases d <;> norm_num <;> intro h <;> (try split_ifs at h) <;>
    first
      | exact Except.noConfusion h
      | (try simp only [Except.ok.injEq] at h
         subst h
         simp [op_00e0, op_1nnn, op_3xkk, op_4xkk, op_5xy0, op_6xkk, op_7xkk, op_8xy0,
               op_8xy1, op_8xy2, op_8xy3, op_8xy4, op_8xy5, op_8xy6, op_8xy7, op_8xye,
               op_9xy0, op_annn, op_bnnn, op_cxkk, op_fx07, op_fx0a, op_fx15, op_fx18,
               op_fx1e, op_fx29, setReg, updf, apply_ite]
         try omega)
      | (simp only [op_00ee, op_2nnn, op_dxyn, op_ex9e, op_exa1, op_fx33, op_fx55,
                    op_fx65] at h
         (try split_ifs at h) <;>
           first
             | exact Except.noConfusion h
             | (simp only [Except.ok.injEq] at h
                subst h
                simp [setReg, updf, apply_ite])
             | (split at h <;>
                 first
                   | exact Except.noConfusion h
                   | (simp only [Except.ok.injEq] at h
                      subst h
                      simp [setReg, updf, apply_ite])))

theorem tick_wait_key (s s' : Device) (rnd : Nat) (h : tick s rnd = .ok s') :
    s'.wait_key = s.wait_key ∨ s'.wait_key < 16 := by
  unfold tick fetch at h
  split_ifs at h
  · dsimp only at h
    exact execute_mk_wait_key { s with draw_flag := false, pc := s.pc + 2 } s'
      (wordAt { s with draw_flag := false }) rnd (wordAt_lt _) h

theorem handle_key_wait_key (s s' : Device) (k : Nat) (p : Bool)
    (h : handle_key s k p = .ok s') :
    s'.wait_key = s.wait_key ∨ s'.wait_key = 255 := by
  unfold handle_key at h
  dsimp only at h
  split_ifs at h <;>
    first
      | exact Except.noConfusion h
      | (simp only [Except.ok.injEq] at h
         subst h
         simp)

/-- C1 counterexample: the word 0x0000 is of the form 0x0nnn and is neither
00E0 nor 00EE, so the claim requires a fatal decode error; ticking the
fresh VM (whose memory is all zeroes, so the fetched word is 0x0000)
instead succeeds as a silent no-op that only advances PC. -/
theorem c1_unknown_opcode_counterexample :
    wordAt init = 0
    ∧ tick init 0 = .ok { init with pc := 0x202, draw_flag := false }
    ∧ isErr (tick init 0) = false :=
  ⟨by decide, by rfl, by decide⟩

set_option maxHeartbeats 1000000 in
/-- C1: amended. Every word on which the dispatch of tick() matches no arm
is a fatal decode error: class-0 words with low byte outside
{0x00, 0xE0, 0xEE}, class-8 words with low nibble outside {0x0-0x7, 0xE},
class-E words with low byte outside {0x9E, 0xA1}, and class-F words with
low byte outside the nine handled values (this is `decodeFatal`). But,
contrary to the original claim, words of the form 0x0n00 - including
0x0000 - are executed as silent no-ops: PC advances by 2 and nothing else
changes. -/
theorem c1_unknown_opcode (s : Device) (rnd : Nat) (hpc : s.pc + 1 < 4096) :
    (decodeFatal (wordAt s) = true → tick s rnd = .error (.decode (wordAt s)))
    ∧ (wordAt s / 4096 = 0 → wordAt s % 256 = 0 →
        tick s rnd = .ok { s with draw_flag := false, pc := s.pc + 2 }) := by
  constructor
  · rw [tick_reduce s rnd hpc]
    generalize ({ s with draw_flag := false, pc := s.pc + 2 } : Device) = S
    have hwlt : wordAt s < 65536 := wordAt_lt s
    revert hwlt
    generalize wordAt s = w
    intro hwlt
    unfold execute decodeFatal
    dsimp only [mkOpcode]
    generalize hd : w / 4096 = d
    have hd15 : d ≤ 15 := by omega
    interval_cases d <;> norm_num <;> intros <;> split_ifs <;> first | rfl | omega
  · intro hcode0 hkk
    rw [tick_reduce s rnd hpc]
    unfold execute
    dsimp only [mkOpcode]
    have hcode : wordAt s / 4096 * 4096 = 0 := by omega
    rw [hcode, hkk]
    norm_num

/-- C1 witness: on the word 0x0123 (class 0, low byte 0x23), which
`decodeFatal` classifies as unmatched, tick() is the fatal decode error. -/
theorem c1_unknown_opcode_witness :
    decodeFatal (wordAt c1wdev) = true
    ∧ tick c1wdev 0 = .error (.decode (wordAt c1wdev)) :=
  ⟨by decide, (c1_unknown_opcode c1wdev 0 (by decide)).1 (by decide)⟩

/-- C2: the draw routine clips with a strict comparison (x_pos > 64,
y_pos > 32), so column index 64 and row index 32 are not skipped.
Evaluating the code at the failing inputs: drawing the two-row sprite
[0x80, 0x80] at (0, 31) reaches row index 32 and faults on buffer index
2048 (the Rust index-out-of-bounds panic), instead of clipping the second
row; and drawing [0x40] at (63, 0) writes buffer index 64 - pixel (0, 1),
the start of the next row - instead of skipping column index 64. Both
contradict the claim that out-of-grid rows and columns are skipped and
that no buffer index outside the grid is accessed. -/
theorem c2_draw_clip :
    Screen.draw (fun _ => false) 0 31 [0x80, 0x80] = .error .bounds
    ∧ bufAt (Screen.draw (fun _ => false) 63 0 [0x40]) 64 = some true
    ∧ bufAt (Screen.draw (fun _ => false) 63 0 [0x40]) 63 = some false :=
  ⟨by rfl, by rfl, by rfl⟩

/-- C3 counterexample: with V0 = 2 and V1 = 1, executing 8016 (x = 0,
y = 1) yields V0 = 0 and VF = 1, while the claim predicts
V0 = old V0 >> 1 = 1 and VF = old V0 AND 1 = 0; with V0 = 2 and
V1 = 0x80, executing 801E yields V0 = 0 and VF = 1, while the claim
predicts V0 = 4 and VF = 0. -/
theorem c3_shift_source_counterexample :
    ((op_8xy6 c3dev 0 1).registers 0 = 0 ∧ (op_8xy6 c3dev 0 1).registers 15 = 1
      ∧ c3dev.registers 0 >>> 1 = 1 ∧ c3dev.registers 0 &&& 1 = 0)
    ∧ ((op_8xye c3devE 0 1).registers 0 = 0 ∧ (op_8xye c3devE 0 1).registers 15 = 1
      ∧ (c3devE.registers 0 <<< 1) % 256 = 4 ∧ c3devE.registers 0 >>> 7 = 0) := by
  decide

/-- C3: amended. The shift source register is Vy, not Vx: 8xy6 sets
VF to the least significant bit of the old Vy and Vx to the old Vy
shifted right by 1; 8xyE sets VF to the most significant bit of the old
Vy and Vx to the old Vy shifted left by 1 (truncated to 8 bits); all
registers other than Vx and VF are unchanged (when x = 15 the final flag
write wins). -/
theorem c3_shift_source (s : Device) (x y : Nat) (hx : x < 16) (hy : y < 16) :
    ((op_8xy6 s x y).registers 15 = s.registers y &&& 1
      ∧ (x ≠ 15 → (op_8xy6 s x y).registers x = s.registers y >>> 1)
      ∧ (∀ j, j ≠ x → j ≠ 15 → (op_8xy6 s x y).registers j = s.registers j))
    ∧ ((op_8xye s x y).registers 15 = s.registers y >>> 7
      ∧ (x ≠ 15 → (op_8xye s x y).registers x = (s.registers y <<< 1) % 256)
      ∧ (∀ j, j ≠ x → j ≠ 15 → (op_8xye s x y).registers j = s.registers j)) := by
  unfold op_8xy6 op_8xye setReg updf register
  dsimp only
  refine ⟨⟨?_, ?_, ?_⟩, ⟨?_, ?_, ?_⟩⟩
  · rw [if_pos rfl]
  · intro h
    rw [if_neg h, if_pos rfl]
  · intro j h1 h2
    rw [if_neg h2, if_neg h1]
  · rw [if_pos rfl]
  · intro h
    rw [if_neg h, if_pos rfl]
  · intro j h1 h2
    rw [if_neg h2, if_neg h1]

/-- C3 witness: the amended statement evaluated at V0 = 2, V1 = 1. -/
theorem c3_shift_source_witness :
    (op_8xy6 c3dev 0 1).registers 0 = c3dev.registers 1 >>> 1
    ∧ (op_8xye c3dev 0 1).registers 0 = (c3dev.registers 1 <<< 1) % 256 :=
  ⟨(c3_shift_source c3dev 0 1 (by decide) (by decide)).1.2.1 (by decide),
   (c3_shift_source c3dev 0 1 (by decide) (by decide)).2.2.1 (by decide)⟩

/-- C4 counterexample: with VF = 1, executing 8011 (V0 |= V1) overwrites
VF with 0, while the claim says VF is not overwritten; likewise for
8xy2 and 8xy3. -/
theorem c4_bitwise_flag_counterexample :
    c4dev.registers 15 = 1 ∧ (op_8xy1 c4dev 0 1).registers 15 = 0
    ∧ (op_8xy2 c4dev 0 1).registers 15 = 0
    ∧ (op_8xy3 c4dev 0 1).registers 15 = 0 := by
  decide

/-- C4: amended. 8xy1/8xy2/8xy3 set Vx := Vx OR/AND/XOR Vy, and -
contrary to the original claim - also reset VF to 0 as a side effect
(the VF-reset quirk); every register other than Vx and VF is unchanged. -/
theorem c4_bitwise_flag (s : Device) (x y : Nat) :
    ((op_8xy1 s x y).registers 15 = 0
      ∧ (x ≠ 15 → (op_8xy1 s x y).registers x = s.registers x ||| s.registers y)
      ∧ (∀ j, j ≠ x → j ≠ 15 → (op_8xy1 s x y).registers j = s.registers j))
    ∧ ((op_8xy2 s x y).registers 15 = 0
      ∧ (x ≠ 15 → (op_8xy2 s x y).registers x = s.registers x &&& s.registers y)
      ∧ (∀ j, j ≠ x → j ≠ 15 → (op_8xy2 s x y).registers j = s.registers j))
    ∧ ((op_8xy3 s x y).registers 15 = 0
      ∧ (x ≠ 15 → (op_8xy3 s x y).registers x = s.registers x ^^^ s.registers y)
      ∧ (∀ j, j ≠ x → j ≠ 15 → (op_8xy3 s x y).registers j = s.registers j)) := by
  unfold op_8xy1 op_8xy2 op_8xy3 setReg updf register
  dsimp only
  refine ⟨⟨?_, ?_, ?_⟩, ⟨?_, ?_, ?_⟩, ⟨?_, ?_, ?_⟩⟩ <;>
    first
      | (intro j h1 h2; rw [if_neg h2, if_neg h1])
      | (intro h; rw [if_neg h, if_pos rfl])
      | rw [if_pos rfl]

/-- C4 witness: the amended statement evaluated at V0 = 0, V1 = 0, VF = 1. -/
theorem c4_bitwise_flag_witness :
    (op_8xy1 c4dev 0 1).registers 15 = 0
    ∧ (op_8xy1 c4dev 0 1).registers 0 = c4dev.registers 0 ||| c4dev.registers 1
    ∧ (op_8xy1 c4dev 0 1).registers 3 = c4dev.registers 3 :=
  ⟨(c4_bitwise_flag c4dev 0 1).1.1,
   (c4_bitwise_flag c4dev 0 1).1.2.1 (by decide),
   (c4_bitwise_flag c4dev 0 1).1.2.2 3 (by decide) (by decide)⟩

/-- C5: while the device is waiting for a key (wait_key is not the 0xFF
sentinel), an interpreter step of the run loop leaves the state untouched
(no fetch, no PC advance); a key press (pressed = true) leaves wait_key
unchanged, so the machine keeps waiting; the first key release while
waiting stores the key index into the pending register, clears the wait
state to 0xFF, and leaves PC untouched so normal ticking resumes; and
executing Fx0A puts the machine into the wait state targeting register
x. -/
theorem c5_wait_for_key (s : Device) (key rnd : Nat) :
    (s.wait_key ≠ 255 → cpuStep s rnd = .ok s)
    ∧ (key < 16 → s.wait_key ≠ 255 →
        wkOf (handle_key s key true) = some s.wait_key
        ∧ pcOf (handle_key s key true) = some s.pc)
    ∧ (key < 16 → s.wait_key ≠ 255 → s.wait_key < 16 →
        regOf (handle_key s key false) s.wait_key = some key
        ∧ wkOf (handle_key s key false) = some 255
        ∧ pcOf (handle_key s key false) = some s.pc)
    ∧ (s.pc + 1 < 4096 → wordAt s / 4096 = 15 → wordAt s % 256 = 0x0A →
        wkOf (tick s rnd) = some (wordAt s / 256 % 16)) := by
  refine ⟨?_, ?_, ?_, ?_⟩
  · intro h
    unfold cpuStep
    rw [if_pos h]
  · intro hk h
    unfold handle_key
    rw [if_pos hk, if_neg (by simp)]
    exact ⟨rfl, rfl⟩
  · intro hk h1 h2
    unfold handle_key
    dsimp only
    rw [if_pos hk, if_pos ⟨h1, rfl⟩, if_pos h2]
    refine ⟨?_, rfl, rfl⟩
    dsimp only [regOf, updf]
    rw [if_pos rfl]
  · intro hpc hw hkk
    rw [tick_reduce s rnd hpc]
    unfold execute
    dsimp only [mkOpcode]
    have hcode : wordAt s / 4096 * 4096 = 61440 := by omega
    rw [hcode, hkk]
    norm_num
    rfl

/-- C5 witness: the spec scenario - waiting for register 3, KeyChanged(9,
true) keeps waiting, KeyChanged(9, false) stores 9 into V3 and resumes;
and ticking F30A enters the wait state for register 3. -/
theorem c5_wait_for_key_witness :
    cpuStep c5wdev 0 = .ok c5wdev
    ∧ wkOf (handle_key c5wdev 9 true) = some c5wdev.wait_key
    ∧ regOf (handle_key c5wdev 9 false) c5wdev.wait_key = some 9
    ∧ wkOf (handle_key c5wdev 9 false) = some 255
    ∧ wkOf (tick c5fdev 0) = some (wordAt c5fdev / 256 % 16) :=
  ⟨(c5_wait_for_key c5wdev 9 0).1 (by decide),
   ((c5_wait_for_key c5wdev 9 0).2.1 (by decide) (by decide)).1,
   ((c5_wait_for_key c5wdev 9 0).2.2.1 (by decide) (by decide) (by decide)).1,
   ((c5_wait_for_key c5wdev 9 0).2.2.1 (by decide) (by decide) (by decide)).2.1,
   (c5_wait_for_key c5fdev 9 0).2.2.2 (by decide) (by decide) (by decide)⟩

/-- C6: with the call word 2nnn (high byte 0x20 + nh, low byte lo) at PC
and 00EE at nnn, and stack depth below 16, executing the call and then
the return restores PC to the address immediately after the 2nnn
(PC + 2) and restores the stack depth; executing a call at stack depth
16 is a fatal error (the stack store is out of bounds), and executing
00EE at depth 0 is a fatal underflow error. -/
theorem c6_call_return (s : Device) (nh lo r1 r2 : Nat) :
    (s.pc + 1 < 4096 → s.memory s.pc = 0x20 + nh → nh < 16 →
      s.memory (s.pc + 1) = lo → lo < 256 →
      s.sp < 16 → nh * 256 + lo + 1 < 4096 →
      s.memory (nh * 256 + lo) = 0 → s.memory (nh * 256 + lo + 1) = 0xEE →
      pcOf (tick2 s r1 r2) = some (s.pc + 2) ∧ spOf (tick2 s r1 r2) = some s.sp)
    ∧ (s.pc + 1 < 4096 → s.memory s.pc = 0x20 + nh → nh < 16 →
      s.memory (s.pc + 1) = lo → lo < 256 → s.sp = 16 →
      tick s r1 = .error .bounds)
    ∧ (s.pc + 1 < 4096 → s.memory s.pc = 0 → s.memory (s.pc + 1) = 0xEE →
      s.sp = 0 → tick s r1 = .error .bounds) := by
  refine ⟨?_, ?_, ?_⟩
  · intro hpc hm0 hnh hm1 hlo hsp hlt hmn0 hmn1
    have hw : wordAt s = (32 + nh) * 256 + lo := by
      unfold wordAt
      rw [hm0, hm1, Nat.mod_eq_of_lt (by omega), Nat.mod_eq_of_lt (by omega)]
    have hcode : wordAt s / 4096 * 4096 = 8192 := by rw [hw]; omega
    have hnnn : wordAt s % 4096 = nh * 256 + lo := by rw [hw]; omega
    unfold tick2
    rw [tick_reduce s r1 hpc]
    unfold execute
    dsimp only [mkOpcode]
    rw [hcode, hnnn]
    norm_num
    unfold op_2nnn
    dsimp only
    rw [if_pos hsp]
    dsimp only
    rw [tick_reduce]
    case h => exact hlt
    unfold execute
    dsimp only [mkOpcode]
    unfold wordAt
    dsimp only
    rw [hmn0, hmn1]
    norm_num
    unfold op_00ee
    dsimp only
    rw [if_neg (Nat.succ_ne_zero s.sp)]
    dsimp only [pcOf, spOf, updf]
    rw [Nat.add_sub_cancel, if_pos rfl]
    exact ⟨rfl, rfl⟩
  · intro hpc hm0 hnh hm1 hlo hsp
    have hw : wordAt s = (32 + nh) * 256 + lo := by
      unfold wordAt
      rw [hm0, hm1, Nat.mod_eq_of_lt (by omega), Nat.mod_eq_of_lt (by omega)]
    have hcode : wordAt s / 4096 * 4096 = 8192 := by rw [hw]; omega
    rw [tick_reduce s r1 hpc]
    unfold execute
    dsimp only [mkOpcode]
    rw [hcode]
    norm_num
    unfold op_2nnn
    dsimp only
    rw [if_neg (by omega)]
  · intro hpc hm0 hm1 hsp
    have hw : wordAt s = 238 := by
      unfold wordAt
      rw [hm0, hm1]
    rw [tick_reduce s r1 hpc]
    unfold execute
    dsimp only [mkOpcode]
    rw [hw]
    norm_num
    unfold op_00ee
    dsimp only
    rw [if_pos hsp]

/-- C6 witness: calling 0x300 from 0x200 and returning lands on 0x202
with the stack depth restored; the same call at depth 16 faults; a
return on an empty stack faults. -/
theorem c6_call_return_witness :
    (pcOf (tick2 c6dev 0 0) = some (c6dev.pc + 2)
      ∧ spOf (tick2 c6dev 0 0) = some c6dev.sp)
    ∧ tick c6odev 0 = .error .bounds
    ∧ tick c6udev 0 = .error .bounds :=
  ⟨(c6_call_return c6dev 3 0 0 0).1 (by decide) (by decide) (by decide) (by decide)
      (by decide) (by decide) (by decide) (by decide) (by decide),
   (c6_call_return c6odev 3 0 0 0).2.1 (by decide) (by decide) (by decide) (by decide)
      (by decide) (by decide),
   (c6_call_return c6udev 0 0 0 0).2.2 (by decide) (by decide) (by decide) (by decide)⟩

/-- C7: for every register index x and every I with I + x < 4096,
executing Fx55 and then Fx65 with the same x and the same I restores
registers V0..Vx to their pre-Fx55 values, and each of the two
instructions leaves I advanced by exactly x + 1 over its own starting
value. -/
theorem c7_block_transfer_roundtrip (s : Device) (x : Nat) (hx : x < 16) (hI : s.i + x < 4096) :
    (∀ r, r ≤ x → regOf (fx55then65 s x) r = some (s.registers r))
    ∧ iOf (op_fx55 s x) = some (s.i + x + 1)
    ∧ iOf (fx55then65 s x) = some (s.i + x + 1) := by
  have hmod : (s.i + x) % 65536 = s.i + x := Nat.mod_eq_of_lt (by omega)
  have hmod1 : (s.i + x + 1) % 65536 = s.i + x + 1 := Nat.mod_eq_of_lt (by omega)
  have hcond : s.i ≤ (s.i + x) % 65536 ∧ (s.i + x) % 65536 < 4096 := by
    rw [hmod]; omega
  simp only [fx55then65, op_fx55, op_fx65, if_pos hcond]
  simp only [hmod, hmod1]
  refine ⟨?_, rfl, rfl⟩
  intro r hr
  simp only [regOf]
  rw [if_pos hr]
  have h1 : s.i ≤ s.i + r ∧ s.i + r ≤ s.i + x := by omega
  rw [if_pos h1]
  simp only [Nat.add_sub_cancel_left]

/-- C7 witness: the round trip evaluated at x = 2, I = 0x300. -/
theorem c7_block_transfer_roundtrip_witness :
    regOf (fx55then65 c7dev 2) 1 = some (c7dev.registers 1)
    ∧ iOf (op_fx55 c7dev 2) = some (c7dev.i + 2 + 1)
    ∧ iOf (fx55then65 c7dev 2) = some (c7dev.i + 2 + 1) :=
  ⟨(c7_block_transfer_roundtrip c7dev 2 (by decide) (by decide)).1 1 (by decide),
   (c7_block_transfer_roundtrip c7dev 2 (by decide) (by decide)).2.1,
   (c7_block_transfer_roundtrip c7dev 2 (by decide) (by decide)).2.2⟩

/-- C8: every instruction that computes a memory address from I plus an
offset faults rather than wrapping when an accessed address would fall
outside [0, 4096): Dxyn when I + n exceeds 4096, Fx33 when I + 2 exceeds
4095, and Fx55/Fx65 when I + x exceeds 4095, each return the bounds
fault that models the Rust index/slice panic. -/
theorem c8_oob_access_fatal (s : Device) (x y n : Nat) (hi : s.i < 65536) :
    (n < 16 → 4096 < s.i + n → op_dxyn s x y n = .error .bounds)
    ∧ (4095 < s.i + 2 → op_fx33 s x = .error .bounds)
    ∧ (x < 16 → 4095 < s.i + x → op_fx55 s x = .error .bounds)
    ∧ (x < 16 → 4095 < s.i + x → op_fx65 s x = .error .bounds) := by
  refine ⟨?_, ?_, ?_, ?_⟩
  · intro hn h
    unfold op_dxyn
    dsimp only
    split_ifs <;> first | rfl | omega
  · intro h
    unfold op_fx33
    dsimp only
    split_ifs <;> first | rfl | omega
  · intro hx h
    unfold op_fx55
    dsimp only
    split_ifs <;> first | rfl | omega
  · intro hx h
    unfold op_fx65
    dsimp only
    split_ifs <;> first | rfl | omega

/-- C8 witness: with I = 4094, a 10-row sprite read, a BCD store, and
block transfers with x = 2 all fault. -/
theorem c8_oob_access_fatal_witness :
    op_dxyn c8dev 2 0 10 = .error .bounds
    ∧ op_fx33 c8dev 2 = .error .bounds
    ∧ op_fx55 c8dev 2 = .error .bounds
    ∧ op_fx65 c8dev 2 = .error .bounds :=
  ⟨(c8_oob_access_fatal c8dev 2 0 10 (by decide)).1 (by decide) (by decide),
   (c8_oob_access_fatal c8dev 2 0 10 (by decide)).2.1 (by decide),
   (c8_oob_access_fatal c8dev 2 0 10 (by decide)).2.2.1 (by decide) (by decide),
   (c8_oob_access_fatal c8dev 2 0 10 (by decide)).2.2.2 (by decide) (by decide)⟩

/-- C9: load copies the ROM bytes into memory starting at 0x200, filling
at most the program space 0x200..0xFFF (3583 bytes, the Rust slice
memory[0x200..0xFFF]); a larger ROM is truncated to that size (load is a
total function, so truncation is never a failure); the 80-byte font set
is installed at the start of memory; and every address outside the font
region and the loaded program region keeps its previous contents. -/
theorem c9_load_rom (mem : Nat → Nat) (rom : List Nat) :
    (∀ k, k < min rom.length 3583 → load mem rom (0x200 + k) = rom.getD k 0)
    ∧ (∀ a, 0x200 + min rom.length 3583 ≤ a → load mem rom a = mem a)
    ∧ (∀ a, a < 80 → load mem rom a = FONT.getD a 0)
    ∧ (∀ a, 80 ≤ a → a < 0x200 → load mem rom a = mem a)
    ∧ (3583 ≤ rom.length → min rom.length 3583 = 3583) := by
  have hlen : FONT.length = 80 := by rfl
  refine ⟨?_, ?_, ?_, ?_, ?_⟩
  · intro k hk
    unfold load
    rw [hlen, if_neg (by omega), if_pos (by omega)]
    simp only [Nat.add_sub_cancel_left]
  · intro a ha
    unfold load
    rw [hlen, if_neg (by omega), if_neg (by omega)]
  · intro a ha
    unfold load
    rw [hlen, if_pos (by omega)]
  · intro a ha1 ha2
    unfold load
    rw [hlen, if_neg (by omega), if_neg (by omega)]
  · intro h
    omega

/-- C9 witness: loading the two-byte ROM [7, 8] into zeroed memory. -/
theorem c9_load_rom_witness :
    load (fun _ => 0) [7, 8] (0x200 + 0) = [7, 8].getD 0 0
    ∧ load (fun _ => 0) [7, 8] 768 = 0
    ∧ load (fun _ => 0) [7, 8] 3 = FONT.getD 3 0
    ∧ load (fun _ => 0) [7, 8] 100 = 0 :=
  ⟨(c9_load_rom (fun _ => 0) [7, 8]).1 0 (by decide),
   (c9_load_rom (fun _ => 0) [7, 8]).2.1 768 (by decide),
   (c9_load_rom (fun _ => 0) [7, 8]).2.2.1 3 (by decide),
   (c9_load_rom (fun _ => 0) [7, 8]).2.2.2.1 100 (by decide) (by decide)⟩

/-- C10: in every state reachable from the initial VM state by successful
tick and handle_key steps, the wait_key field is either the 0xFF sentinel
or a register index below 16; in particular whenever it is not the
sentinel it is a valid index, so the register store performed by a key
release while waiting is in bounds. -/
theorem c10_wait_key_range (s : Device) (h : Reachable s) :
    (s.wait_key = 255 ∨ s.wait_key < 16) ∧ (s.wait_key ≠ 255 → s.wait_key < 16) := by
  have main : s.wait_key = 255 ∨ s.wait_key < 16 := by
    induction h with
    | init => exact Or.inl rfl
    | tick s0 s' rnd hr heq ih =>
        rcases tick_wait_key s0 s' rnd heq with h1 | h1
        · rw [h1]; exact ih
        · exact Or.inr h1
    | key s0 s' k p hr heq ih =>
        rcases handle_key_wait_key s0 s' k p heq with h1 | h1
        · rw [h1]; exact ih
        · exact Or.inl h1
  exact ⟨main, fun hne => main.resolve_left hne⟩

/-- C10 witness: the invariant holds at the initial state. -/
theorem c10_wait_key_range_witness :
    (init.wait_key = 255 ∨ init.wait_key < 16)
    ∧ (init.wait_key ≠ 255 → init.wait_key < 16) :=
  c10_wait_key_range init Reachable.init

end Chip8
